import Mathlib

/-!
Shallow embedding of the PipeCD ECS rollback executor
(pkg/app/piped/executor/ecs/rollback.go) and of the wait stage plugin
(pkg/app/pipedv1/plugin/wait/plugin.go), together with proofs of the
behavioural properties claimed by the specification.

Remote Platform Client operations are modelled as fields of a Client record
returning Except values; the executor functions additionally return the exact
ordered list of Platform Client calls they issued, so that ordering and
abort-at-first-failure properties are statable.
-/

namespace Pipecd

/-- model.StageStatus values used by the executor. -/
inductive StageStatus where
  | notStartedYet
  | running
  | success
  | failure
  | cancelled
  | skipped
  | exited
deriving DecidableEq, Repr

/-- Modelled from the spec: the reasons observable through StopSignal.Signal()
(none / requested-stop / timeout); the StopSignal type itself is not among the
given sources. -/
inductive StopSignalKind where
  | none
  | cancel
  | timeout
deriving DecidableEq, Repr

/-- Errors returned by Platform Client operations. Err.notFound is the
distinguished platformprovider.ErrNotFound condition; Err.fatal stands for any
other error. -/
inductive Err where
  | notFound
  | fatal
deriving DecidableEq, Repr

/-- types.TaskDefinition; only the Family field is inspected by the executor. -/
structure TaskDefinition where
  family : String
deriving DecidableEq, Repr

/-- types.Service; only the ServiceName field is inspected by the executor. -/
structure Service where
  serviceName : String
deriving DecidableEq, Repr

/-- types.TaskSet; only the TaskSetArn field is inspected by the executor. -/
structure TaskSet where
  taskSetArn : String
deriving DecidableEq, Repr

/-- types.LoadBalancer used as a target-group descriptor; only the
TargetGroupArn field is inspected by the executor. -/
structure LoadBalancer where
  targetGroupArn : String
deriving DecidableEq, Repr

/-- One entry of provider.RoutingTrafficConfig: a target group ARN and its
listener weight. -/
structure RoutingTraffic where
  targetGroupArn : String
  weight : Int
deriving DecidableEq, Repr

/-- provider.RoutingTrafficConfig is a list of weighted target groups. -/
abbrev RoutingTrafficConfig := List RoutingTraffic

/-- One Platform Client call, recorded with its arguments. These are the
remote operations of provider.Client issued by the rollback path. -/
inductive PCall where
  | registerTaskDefinition (td : TaskDefinition)
  | applyServiceDefinition (sd : Service)
  | getServiceTaskSets (s : Service)
  | createTaskSet (s : Service) (td : TaskDefinition) (tg : Option LoadBalancer) (scale : Nat)
  | updateServicePrimaryTaskSet (s : Service) (ts : TaskSet)
  | getListenerArns (tg : LoadBalancer)
  | modifyListeners (arns : List String) (cfg : RoutingTrafficConfig)
  | deleteTaskSet (ts : TaskSet)
deriving DecidableEq, Repr

/-- Result of rollbackELB: whether it succeeded, the Platform Client calls it
issued, and the modified listener rules it reported through the log persister
(logModifiedRules). -/
structure ELBResult where
  ok : Bool
  calls : List PCall
  reportedRules : List String
deriving DecidableEq, Repr

/-- The provider.Client operations consumed by the rollback path, modelled as
an environment of response functions. ModifyListeners returns the rules it did
modify together with an optional error, mirroring the Go signature in which a
partial failure still reports the modified rules. ApplyServiceDefinition
stands for the applyServiceDefinition helper (its defining file is not among
the given sources); it re-applies the service definition through the client
and returns the resulting service. -/
structure Client where
  RegisterTaskDefinition : TaskDefinition → Except Err TaskDefinition
  ApplyServiceDefinition : Service → Except Err Service
  GetServiceTaskSets : Service → Except Err (List TaskSet)
  CreateTaskSet : Service → TaskDefinition → Option LoadBalancer → Nat → Except Err TaskSet
  UpdateServicePrimaryTaskSet : Service → TaskSet → Except Err TaskSet
  GetListenerArns : LoadBalancer → Except Err (List String)
  ModifyListeners : List String → RoutingTrafficConfig → List String × Option Err
  DeleteTaskSet : TaskSet → Except Err Unit

/-- Lookup in the shared namespace of the metadata store
(MetadataStore.Shared().Get): first binding of the key wins. -/
def sharedGet : List (String × String) → String → Option String
  | [], _ => Option.none
  | (k, v) :: rest, key => if k = key then Option.some v else sharedGet rest key

/-- Modelled from the spec: the well-known "canary target group" key written
by the traffic-routing stage; its defining constant is not among the given
sources. Only its identity matters to the claims. -/
def canaryTargetGroupArnKey : String := "canary-target-group-arn"

/-- Modelled from the spec: model.StageRollback, the name of the rollback
stage; its defining constant is not among the given sources. -/
def StageRollback : String := "ROLLBACK"

/-- The fields of a model.PipelineStage read by the rollback executor:
its name and its declared status. -/
structure Stage where
  name : String
  status : StageStatus
deriving DecidableEq, Repr

/-- The field of model.Deployment read by the rollback executor. -/
structure Deployment where
  runningCommitHash : String
deriving DecidableEq, Repr

/-- The ECSApplicationSpec section of the application configuration; the
executor only checks its presence and reads the input file names. -/
structure ECSApplicationSpec where
  taskDefinitionFile : String
  serviceDefinitionFile : String
deriving DecidableEq, Repr

/-- The running deploy source data returned by RunningDSP.GetReadOnly; the
executor reads ApplicationConfig.ECSApplicationSpec from it. -/
structure RunningDS where
  ecsApplicationSpec : Option ECSApplicationSpec

/-- The environment of one rollback executor run (executor.Input together
with the outcomes of the local helper functions whose defining files are not
among the given sources: RunningDSP.GetReadOnly, findPlatformProvider,
loadTaskDefinition, loadServiceDefinition, loadTargetGroups, and the provider
registry client construction). Option.none encodes the failure of the
corresponding helper. -/
structure ExecutorInput where
  deployment : Deployment
  runningDS : Option RunningDS
  platformProviderFound : Bool
  taskDefinition : Option TaskDefinition
  serviceDefinition : Option Service
  targetGroups : Option (Option LoadBalancer × Option LoadBalancer)
  client : Option Client
  metadataShared : List (String × String)
  stage : Stage

/-- Modelled from the spec: the stage-status decision rule applied by the
engine after an executor returns (executor.DetermineStageStatus, whose body is
not among the given sources). If the signal shows a requested cancellation or
a timeout, the final status is CANCELLED regardless of the raw result, unless
the raw result is already a definitive SUCCESS, which is preserved; with no
signal the raw result stands. -/
def DetermineStageStatus (sig : StopSignalKind) (originalStatus : StageStatus)
    (got : StageStatus) : StageStatus :=
  match sig with
  | StopSignalKind.none => got
  | StopSignalKind.cancel =>
      if got = StageStatus.success then got else StageStatus.cancelled
  | StopSignalKind.timeout =>
      if got = StageStatus.success then got else StageStatus.cancelled

/-- The deletion loop over the snapshotted previous ACTIVE task sets
(rollback.go lines 149-157): delete each in order, stopping with failure at
the first deletion error. Returns the outcome and the delete calls issued. -/
def deleteTaskSets (c : Client) : List TaskSet → Bool × List PCall
  | [] => (true, [])
  | ts :: rest =>
    match c.DeleteTaskSet ts with
    | Except.error _ => (false, [PCall.deleteTaskSet ts])
    | Except.ok _ =>
      let r := deleteTaskSets c rest
      (r.1, PCall.deleteTaskSet ts :: r.2)

/-- The routing tail of rollbackELB (rollback.go lines 180-210), once the
canary target group ARN has been resolved: build the 100/0 routing
configuration, fetch the current listener ARNs of the primary group, and
modify them; the ok flag is false exactly when ModifyListeners reported an
error, and the rules it did modify are reported either way (on failure only a
non-empty set is logged, which coincides with reporting the returned set). -/
def rollbackELBTraffic (c : Client) (primaryTargetGroup : LoadBalancer)
    (canaryTargetGroupArn : String) : ELBResult :=
  let routingTrafficCfg : RoutingTrafficConfig :=
    [⟨primaryTargetGroup.targetGroupArn, 100⟩, ⟨canaryTargetGroupArn, 0⟩]
  match c.GetListenerArns primaryTargetGroup with
  | Except.error _ => ⟨false, [PCall.getListenerArns primaryTargetGroup], []⟩
  | Except.ok currListenerArns =>
    let r := c.ModifyListeners currListenerArns routingTrafficCfg
    ⟨r.2.isNone,
     [PCall.getListenerArns primaryTargetGroup,
      PCall.modifyListeners currListenerArns routingTrafficCfg],
     r.1⟩

/-- rollbackELB (rollback.go lines 163-211): resolve the canary target group
ARN, preferring the prior-commit config and falling back to the shared
metadata store; when neither has it, skip listener reconciliation and report
success with no Platform Client call. -/
def rollbackELB (c : Client) (meta : List (String × String))
    (primaryTargetGroup : LoadBalancer) (canaryTargetGroup : Option LoadBalancer) :
    ELBResult :=
  match canaryTargetGroup with
  | Option.none =>
    match sharedGet meta canaryTargetGroupArnKey with
    | Option.none => ⟨true, [], []⟩
    | Option.some arn => rollbackELBTraffic c primaryTargetGroup arn
  | Option.some cg => rollbackELBTraffic c primaryTargetGroup cg.targetGroupArn

/-- The tail of rollback after the prevTaskSets snapshot (rollback.go lines
129-160): create the new task set at scale 100 bound to the primary target
group, promote it to PRIMARY, reconcile the ELB listeners when a primary
target group exists, then delete the snapshotted task sets. -/
def rollbackAfterSnapshot (c : Client) (meta : List (String × String))
    (td : TaskDefinition) (service : Service)
    (primary canary : Option LoadBalancer) (prevTaskSets : List TaskSet) :
    Bool × List PCall :=
  match c.CreateTaskSet service td primary 100 with
  | Except.error _ => (false, [PCall.createTaskSet service td primary 100])
  | Except.ok taskSet =>
    match c.UpdateServicePrimaryTaskSet service taskSet with
    | Except.error _ =>
      (false, [PCall.createTaskSet service td primary 100,
               PCall.updateServicePrimaryTaskSet service taskSet])
    | Except.ok _ =>
      match primary with
      | Option.some p =>
        let elb := rollbackELB c meta p canary
        if elb.ok then
          let d := deleteTaskSets c prevTaskSets
          (d.1, ([PCall.createTaskSet service td primary 100,
                  PCall.updateServicePrimaryTaskSet service taskSet] ++ elb.calls) ++ d.2)
        else
          (false, [PCall.createTaskSet service td primary 100,
                   PCall.updateServicePrimaryTaskSet service taskSet] ++ elb.calls)
      | Option.none =>
        let d := deleteTaskSets c prevTaskSets
        (d.1, [PCall.createTaskSet service td primary 100,
               PCall.updateServicePrimaryTaskSet service taskSet] ++ d.2)

/-- rollback (rollback.go lines 97-161). The client argument is the outcome
of provider.DefaultRegistry().Client: Option.none encodes a client
construction failure, after which no remote call is issued. Steps, aborting
at the first failure: re-register the task definition, re-apply the service
definition, snapshot the current PRIMARY/ACTIVE task sets (a notFound error
is ignored and treated as an empty snapshot), then the post-snapshot tail. -/
def rollback (clientOpt : Option Client) (meta : List (String × String))
    (taskDefinition : TaskDefinition) (serviceDefinition : Service)
    (primaryTargetGroup canaryTargetGroup : Option LoadBalancer) : Bool × List PCall :=
  match clientOpt with
  | Option.none => (false, [])
  | Option.some client =>
    match client.RegisterTaskDefinition taskDefinition with
    | Except.error _ => (false, [PCall.registerTaskDefinition taskDefinition])
    | Except.ok td =>
      match client.ApplyServiceDefinition serviceDefinition with
      | Except.error _ =>
        (false, [PCall.registerTaskDefinition taskDefinition,
                 PCall.applyServiceDefinition serviceDefinition])
      | Except.ok service =>
        match client.GetServiceTaskSets service with
        | Except.error e =>
          if e = Err.notFound then
            let r := rollbackAfterSnapshot client meta td service
              primaryTargetGroup canaryTargetGroup []
            (r.1, [PCall.registerTaskDefinition taskDefinition,
                   PCall.applyServiceDefinition serviceDefinition,
                   PCall.getServiceTaskSets service] ++ r.2)
          else
            (false, [PCall.registerTaskDefinition taskDefinition,
                     PCall.applyServiceDefinition serviceDefinition,
                     PCall.getServiceTaskSets service])
        | Except.ok prevTaskSets =>
          let r := rollbackAfterSnapshot client meta td service
            primaryTargetGroup canaryTargetGroup prevTaskSets
          (r.1, [PCall.registerTaskDefinition taskDefinition,
                 PCall.applyServiceDefinition serviceDefinition,
                 PCall.getServiceTaskSets service] ++ r.2)

/-- rollbackExecutor.ensureRollback (rollback.go lines 52-95): precondition
and load checks, each failure reported immediately with no Platform Client
call, then the rollback algorithm; its boolean outcome becomes the stage
status. -/
def rollbackExecutor.ensureRollback (e : ExecutorInput) : StageStatus × List PCall :=
  if e.deployment.runningCommitHash = "" then (StageStatus.failure, [])
  else
    match e.runningDS with
    | Option.none => (StageStatus.failure, [])
    | Option.some ds =>
      match ds.ecsApplicationSpec with
      | Option.none => (StageStatus.failure, [])
      | Option.some _ =>
        if !e.platformProviderFound then (StageStatus.failure, [])
        else
          match e.taskDefinition with
          | Option.none => (StageStatus.failure, [])
          | Option.some td =>
            match e.serviceDefinition with
            | Option.none => (StageStatus.failure, [])
            | Option.some sd =>
              match e.targetGroups with
              | Option.none => (StageStatus.failure, [])
              | Option.some (primary, canary) =>
                let r := rollback e.client e.metadataShared td sd primary canary
                (if r.1 then StageStatus.success else StageStatus.failure, r.2)

/-- rollbackExecutor.Execute (rollback.go lines 34-50): dispatch on the stage
name; the rollback stage runs ensureRollback and applies the stage-status
decision rule, while any other stage name reports STAGE_FAILURE directly. -/
def rollbackExecutor.Execute (e : ExecutorInput) (sig : StopSignalKind) :
    StageStatus × List PCall :=
  let originalStatus := e.stage.status
  if e.stage.name = StageRollback then
    let r := rollbackExecutor.ensureRollback e
    (DetermineStageStatus sig originalStatus r.1, r.2)
  else
    (StageStatus.failure, [])

/-- sdk.ManualOperation values; the wait plugin only ever uses
ManualOperationNone. -/
inductive ManualOperation where
  | none
  | skip
  | approve
deriving DecidableEq, Repr

/-- One requested stage of a BuildPipelineSyncStages request (index and
name are the fields the wait plugin reads). -/
structure StageRequest where
  index : Int
  name : String
deriving DecidableEq, Repr

/-- The request carried by BuildPipelineSyncStagesInput. -/
structure BuildRequest where
  stages : List StageRequest
deriving DecidableEq, Repr

/-- sdk.BuildPipelineSyncStagesInput as read by the wait plugin. -/
structure BuildPipelineSyncStagesInput where
  request : BuildRequest
deriving DecidableEq, Repr

/-- sdk.PipelineStage as produced by the wait plugin. -/
structure PipelineStage where
  index : Int
  name : String
  rollback : Bool
  metadata : List (String × String)
  availableOperation : ManualOperation
deriving DecidableEq, Repr

/-- sdk.BuildPipelineSyncStagesResponse. -/
structure BuildPipelineSyncStagesResponse where
  stages : List PipelineStage
deriving DecidableEq, Repr

/-- The single stage name declared by the wait plugin (plugin.go line 24). -/
def stageWait : String := "WAIT"

/-- plugin.BuildPipelineSyncStages (plugin.go lines 30-46): one stage
descriptor per requested stage, preserving index and name, with the rollback
flag false, empty metadata, and manual operation none; never an error. -/
def plugin.BuildPipelineSyncStages (input : BuildPipelineSyncStagesInput) :
    Except String BuildPipelineSyncStagesResponse :=
  Except.ok ⟨input.request.stages.map (fun rs =>
    ⟨rs.index, rs.name, false, [], ManualOperation.none⟩)⟩

/-- plugin.FetchDefinedStages (plugin.go lines 57-59). -/
def plugin.FetchDefinedStages : List String := [stageWait]

/-! Concrete fixtures used by the witness theorems. -/

/-- A concrete task definition. -/
def wTd : TaskDefinition := ⟨"family-1"⟩

/-- A concrete service definition. -/
def wSd : Service := ⟨"service-1"⟩

/-- A concrete primary target group. -/
def wLbP : LoadBalancer := ⟨"tg-primary"⟩

/-- A concrete canary target group. -/
def wLbC : LoadBalancer := ⟨"tg-canary"⟩

/-- A client for which every operation succeeds. -/
def cOk : Client :=
  ⟨fun t => Except.ok t, fun s => Except.ok s, fun _ => Except.ok [⟨"ts-old"⟩],
   fun _ _ _ _ => Except.ok ⟨"ts-new"⟩, fun _ t => Except.ok t,
   fun _ => Except.ok ["listener-1"], fun _ _ => (["rule-1"], Option.none),
   fun _ => Except.ok ()⟩

/-- A client whose snapshot holds three task sets and whose deletion of the
task set named ts-bad fails. -/
def cDelFail : Client :=
  ⟨fun t => Except.ok t, fun s => Except.ok s,
   fun _ => Except.ok [⟨"ts-old"⟩, ⟨"ts-bad"⟩, ⟨"ts-x"⟩],
   fun _ _ _ _ => Except.ok ⟨"ts-new"⟩, fun _ t => Except.ok t,
   fun _ => Except.ok ["listener-1"], fun _ _ => (["rule-1"], Option.none),
   fun ts => if ts.taskSetArn = "ts-bad" then Except.error Err.fatal else Except.ok ()⟩

/-- A client for which the task-set snapshot reports the distinguished
not-found condition and everything else succeeds. -/
def cNotFound : Client :=
  ⟨fun t => Except.ok t, fun s => Except.ok s, fun _ => Except.error Err.notFound,
   fun _ _ _ _ => Except.ok ⟨"ts-new"⟩, fun _ t => Except.ok t,
   fun _ => Except.ok ["listener-1"], fun _ _ => (["rule-1"], Option.none),
   fun _ => Except.ok ()⟩

/-- A client whose listener modification fails after modifying two rules. -/
def cModFail : Client :=
  ⟨fun t => Except.ok t, fun s => Except.ok s, fun _ => Except.ok [⟨"ts-old"⟩],
   fun _ _ _ _ => Except.ok ⟨"ts-new"⟩, fun _ t => Except.ok t,
   fun _ => Except.ok ["listener-1"],
   fun _ _ => (["rule-1", "rule-2"], Option.some Err.fatal),
   fun _ => Except.ok ()⟩

/-- An executor input whose deployment has an empty running commit hash. -/
def wInputEmptyHash : ExecutorInput :=
  ⟨⟨""⟩, Option.none, false, Option.none, Option.none, Option.none, Option.none, [],
   ⟨"ROLLBACK", StageStatus.running⟩⟩

/-- An executor input whose stage carries a name the ECS rollback executor
does not support. -/
def wInputWait : ExecutorInput :=
  ⟨⟨"abc123"⟩, Option.none, false, Option.none, Option.none, Option.none, Option.none, [],
   ⟨"WAIT", StageStatus.running⟩⟩

/-- A concrete build request with two requested wait stages. -/
def wBuildInput : BuildPipelineSyncStagesInput := ⟨⟨[⟨2, "WAIT"⟩, ⟨5, "WAIT"⟩]⟩⟩

/-! Helper lemmas shared by the claim theorems. -/

/-- When every deletion succeeds, the deletion loop succeeds and issues one
delete call per snapshotted task set, in order. -/
lemma deleteTaskSets_ok (c : Client) (l : List TaskSet)
    (h : ∀ t ∈ l, c.DeleteTaskSet t = Except.ok ()) :
    deleteTaskSets c l = (true, l.map PCall.deleteTaskSet) := by
  induction l with
  | nil => rfl
  | cons t rest ih =>
    have ht := h t (by simp)
    have hr := ih (fun x hx => h x (by simp [hx]))
    simp [deleteTaskSets, ht, hr]

/-- When the first failing deletion is that of ts, the deletion loop fails and
its calls are exactly the deletions of the earlier task sets followed by the
failing one: already-deleted sets stay deleted and nothing is issued after the
failure. -/
lemma deleteTaskSets_fail (c : Client) (l1 : List TaskSet) (ts : TaskSet)
    (l2 : List TaskSet) (e : Err)
    (h1 : ∀ t ∈ l1, c.DeleteTaskSet t = Except.ok ())
    (h2 : c.DeleteTaskSet ts = Except.error e) :
    deleteTaskSets c (l1 ++ ts :: l2) =
      (false, l1.map PCall.deleteTaskSet ++ [PCall.deleteTaskSet ts]) := by
  induction l1 with
  | nil => simp [deleteTaskSets, h2]
  | cons t rest ih =>
    have ht := h1 t (by simp)
    have hr := ih (fun x hx => h1 x (by simp [hx]))
    simp [deleteTaskSets, ht, hr]

/-- Any ModifyListeners call issued by the routing tail carries exactly the
100/0 primary/canary weight configuration. -/
lemma rollbackELBTraffic_modify_mem (c : Client) (p : LoadBalancer) (arn : String)
    (arns : List String) (cfg : RoutingTrafficConfig)
    (h : PCall.modifyListeners arns cfg ∈ (rollbackELBTraffic c p arn).calls) :
    cfg = [⟨p.targetGroupArn, 100⟩, ⟨arn, 0⟩] := by
  rcases hg : c.GetListenerArns p with e | ls <;>
    simp [rollbackELBTraffic, hg] at h
  exact h.2

/-- Case analysis of the post-snapshot tail of rollback: either the task-set
creation fails (and is the last call), or the promotion fails (and is the last
call), or the listener reconciliation fails (and no deletion is issued), or
the tail reaches the deletion loop, whose outcome is final. -/
lemma rollbackAfterSnapshot_cases (c : Client) (meta : List (String × String))
    (td : TaskDefinition) (service : Service)
    (primary canary : Option LoadBalancer) (prev : List TaskSet) :
    (∃ e, c.CreateTaskSet service td primary 100 = Except.error e ∧
        rollbackAfterSnapshot c meta td service primary canary prev =
          (false, [PCall.createTaskSet service td primary 100])) ∨
    (∃ newTs, c.CreateTaskSet service td primary 100 = Except.ok newTs ∧
      ((∃ e, c.UpdateServicePrimaryTaskSet service newTs = Except.error e ∧
          rollbackAfterSnapshot c meta td service primary canary prev =
            (false, [PCall.createTaskSet service td primary 100,
                     PCall.updateServicePrimaryTaskSet service newTs])) ∨
       (∃ ts2, c.UpdateServicePrimaryTaskSet service newTs = Except.ok ts2 ∧
         ((∃ p, primary = Option.some p ∧ (rollbackELB c meta p canary).ok = false ∧
             rollbackAfterSnapshot c meta td service primary canary prev =
               (false, [PCall.createTaskSet service td primary 100,
                        PCall.updateServicePrimaryTaskSet service newTs] ++
                       (rollbackELB c meta p canary).calls)) ∨
          (∃ elbCalls : List PCall,
            ((primary = Option.none ∧ elbCalls = []) ∨
             (∃ p, primary = Option.some p ∧ (rollbackELB c meta p canary).ok = true ∧
               elbCalls = (rollbackELB c meta p canary).calls)) ∧
            rollbackAfterSnapshot c meta td service primary canary prev =
              ((deleteTaskSets c prev).1,
               ([PCall.createTaskSet service td primary 100,
                 PCall.updateServicePrimaryTaskSet service newTs] ++ elbCalls) ++
               (deleteTaskSets c prev).2)))))) := by
  rcases hc : c.CreateTaskSet service td primary 100 with e | newTs
  · exact Or.inl ⟨e, rfl, by simp [rollbackAfterSnapshot, hc]⟩
  refine Or.inr ⟨newTs, rfl, ?_⟩
  rcases hu : c.UpdateServicePrimaryTaskSet service newTs with e | ts2
  · exact Or.inl ⟨e, rfl, by simp [rollbackAfterSnapshot, hc, hu]⟩
  refine Or.inr ⟨ts2, rfl, ?_⟩
  rcases primary with _ | p
  · exact Or.inr ⟨[], Or.inl ⟨rfl, rfl⟩, by simp [rollbackAfterSnapshot, hc, hu]⟩
  cases helb : (rollbackELB c meta p canary).ok with
  | false =>
    exact Or.inl ⟨p, rfl, helb, by simp [rollbackAfterSnapshot, hc, hu, helb]⟩
  | true =>
    exact Or.inr ⟨(rollbackELB c meta p canary).calls, Or.inr ⟨p, rfl, helb, rfl⟩,
      by simp [rollbackAfterSnapshot, hc, hu, helb]⟩

/-- Lift of the post-snapshot case analysis to the full rollback trace, given
that rollback reduced to the post-snapshot tail prefixed by the first three
calls. -/
lemma rollback_tail_cases (c : Client) (meta : List (String × String))
    (td : TaskDefinition) (sd : Service) (primary canary : Option LoadBalancer)
    (td2 : TaskDefinition) (service : Service) (prev : List TaskSet)
    (hred : rollback (Option.some c) meta td sd primary canary =
        ((rollbackAfterSnapshot c meta td2 service primary canary prev).1,
         [PCall.registerTaskDefinition td, PCall.applyServiceDefinition sd,
          PCall.getServiceTaskSets service] ++
         (rollbackAfterSnapshot c meta td2 service primary canary prev).2)) :
    (∃ e, c.CreateTaskSet service td2 primary 100 = Except.error e ∧
        rollback (Option.some c) meta td sd primary canary =
          (false, [PCall.registerTaskDefinition td, PCall.applyServiceDefinition sd,
                   PCall.getServiceTaskSets service,
                   PCall.createTaskSet service td2 primary 100])) ∨
    (∃ newTs, c.CreateTaskSet service td2 primary 100 = Except.ok newTs ∧
      ((∃ e, c.UpdateServicePrimaryTaskSet service newTs = Except.error e ∧
          rollback (Option.some c) meta td sd primary canary =
            (false, [PCall.registerTaskDefinition td, PCall.applyServiceDefinition sd,
                     PCall.getServiceTaskSets service,
                     PCall.createTaskSet service td2 primary 100,
                     PCall.updateServicePrimaryTaskSet service newTs])) ∨
       (∃ ts2, c.UpdateServicePrimaryTaskSet service newTs = Except.ok ts2 ∧
         ((∃ p, primary = Option.some p ∧ (rollbackELB c meta p canary).ok = false ∧
             rollback (Option.some c) meta td sd primary canary =
               (false, [PCall.registerTaskDefinition td, PCall.applyServiceDefinition sd,
                        PCall.getServiceTaskSets service,
                        PCall.createTaskSet service td2 primary 100,
                        PCall.updateServicePrimaryTaskSet service newTs] ++
                       (rollbackELB c meta p canary).calls)) ∨
          (∃ elbCalls : List PCall,
            ((primary = Option.none ∧ elbCalls = []) ∨
             (∃ p, primary = Option.some p ∧ (rollbackELB c meta p canary).ok = true ∧
               elbCalls = (rollbackELB c meta p canary).calls)) ∧
            rollback (Option.some c) meta td sd primary canary =
              ((deleteTaskSets c prev).1,
               ([PCall.registerTaskDefinition td, PCall.applyServiceDefinition sd,
                 PCall.getServiceTaskSets service,
                 PCall.createTaskSet service td2 primary 100,
                 PCall.updateServicePrimaryTaskSet service newTs] ++ elbCalls) ++
               (deleteTaskSets c prev).2)))))) := by
  rcases rollbackAfterSnapshot_cases c meta td2 service primary canary prev with
    ⟨e, hc, heq⟩ | ⟨newTs, hc, hrest⟩
  · exact Or.inl ⟨e, hc, by rw [hred, heq]; simp⟩
  refine Or.inr ⟨newTs, hc, ?_⟩
  rcases hrest with ⟨e, hu, heq⟩ | ⟨ts2, hu, hrest⟩
  · exact Or.inl ⟨e, hu, by rw [hred, heq]; simp⟩
  refine Or.inr ⟨ts2, hu, ?_⟩
  rcases hrest with ⟨p, hp, helb, heq⟩ | ⟨elbCalls, hcase, heq⟩
  · exact Or.inl ⟨p, hp, helb, by rw [hred, heq]; simp⟩
  · exact Or.inr ⟨elbCalls, hcase, by rw [hred, heq]; simp⟩

/-! Claim theorems and witnesses. -/

/-- Claim C1: the rollback algorithm issues its Platform Client operations
strictly in the specified order (re-register the task definition, re-apply
the service definition, snapshot the current PRIMARY/ACTIVE task sets, create
a new task set at full scale 100 bound to the primary target group, promote
it to PRIMARY, reconcile listener weights only when a primary target group
exists, then delete the snapshotted task sets), and on any failing step it
returns failure with the failing call last and none of the later steps
issued. The disjunction lists every exit point with the exact trace of calls
at that point. -/
theorem rollback_order_failfast (c : Client) (meta : List (String × String))
    (td : TaskDefinition) (sd : Service) (primary canary : Option LoadBalancer) :
    (∃ e, c.RegisterTaskDefinition td = Except.error e ∧
        rollback (Option.some c) meta td sd primary canary =
          (false, [PCall.registerTaskDefinition td])) ∨
    (∃ td2 e, c.RegisterTaskDefinition td = Except.ok td2 ∧
        c.ApplyServiceDefinition sd = Except.error e ∧
        rollback (Option.some c) meta td sd primary canary =
          (false, [PCall.registerTaskDefinition td, PCall.applyServiceDefinition sd])) ∨
    (∃ td2 service e, c.RegisterTaskDefinition td = Except.ok td2 ∧
        c.ApplyServiceDefinition sd = Except.ok service ∧
        c.GetServiceTaskSets service = Except.error e ∧ e ≠ Err.notFound ∧
        rollback (Option.some c) meta td sd primary canary =
          (false, [PCall.registerTaskDefinition td, PCall.applyServiceDefinition sd,
                   PCall.getServiceTaskSets service])) ∨
    (∃ td2 service prev, c.RegisterTaskDefinition td = Except.ok td2 ∧
        c.ApplyServiceDefinition sd = Except.ok service ∧
        (c.GetServiceTaskSets service = Except.ok prev ∨
          (c.GetServiceTaskSets service = Except.error Err.notFound ∧ prev = [])) ∧
        ((∃ e, c.CreateTaskSet service td2 primary 100 = Except.error e ∧
            rollback (Option.some c) meta td sd primary canary =
              (false, [PCall.registerTaskDefinition td, PCall.applyServiceDefinition sd,
                       PCall.getServiceTaskSets service,
                       PCall.createTaskSet service td2 primary 100])) ∨
         (∃ newTs, c.CreateTaskSet service td2 primary 100 = Except.ok newTs ∧
           ((∃ e, c.UpdateServicePrimaryTaskSet service newTs = Except.error e ∧
               rollback (Option.some c) meta td sd primary canary =
                 (false, [PCall.registerTaskDefinition td, PCall.applyServiceDefinition sd,
                          PCall.getServiceTaskSets service,
                          PCall.createTaskSet service td2 primary 100,
                          PCall.updateServicePrimaryTaskSet service newTs])) ∨
            (∃ ts2, c.UpdateServicePrimaryTaskSet service newTs = Except.ok ts2 ∧
              ((∃ p, primary = Option.some p ∧ (rollbackELB c meta p canary).ok = false ∧
                  rollback (Option.some c) meta td sd primary canary =
                    (false, [PCall.registerTaskDefinition td,
                             PCall.applyServiceDefinition sd,
                             PCall.getServiceTaskSets service,
                             PCall.createTaskSet service td2 primary 100,
                             PCall.updateServicePrimaryTaskSet service newTs] ++
                            (rollbackELB c meta p canary).calls)) ∨
               (∃ elbCalls : List PCall,
                 ((primary = Option.none ∧ elbCalls = []) ∨
                  (∃ p, primary = Option.some p ∧
                    (rollbackELB c meta p canary).ok = true ∧
                    elbCalls = (rollbackELB c meta p canary).calls)) ∧
                 rollback (Option.some c) meta td sd primary canary =
                   ((deleteTaskSets c prev).1,
                    ([PCall.registerTaskDefinition td, PCall.applyServiceDefinition sd,
                      PCall.getServiceTaskSets service,
                      PCall.createTaskSet service td2 primary 100,
                      PCall.updateServicePrimaryTaskSet service newTs] ++ elbCalls) ++
                    (deleteTaskSets c prev).2)))))))) := by
  rcases h1 : c.RegisterTaskDefinition td with e1 | td2
  · exact Or.inl ⟨e1, rfl, by simp [rollback, h1]⟩
  rcases h2 : c.ApplyServiceDefinition sd with e2 | service
  · exact Or.inr (Or.inl ⟨td2, e2, rfl, rfl, by simp [rollback, h1, h2]⟩)
  rcases h3 : c.GetServiceTaskSets service with e3 | prev
  · by_cases hnf : e3 = Err.notFound
    · subst hnf
      have hred : rollback (Option.some c) meta td sd primary canary =
          ((rollbackAfterSnapshot c meta td2 service primary canary []).1,
           [PCall.registerTaskDefinition td, PCall.applyServiceDefinition sd,
            PCall.getServiceTaskSets service] ++
           (rollbackAfterSnapshot c meta td2 service primary canary []).2) := by
        simp [rollback, h1, h2, h3]
      exact Or.inr (Or.inr (Or.inr ⟨td2, service, [], rfl, rfl, Or.inr ⟨h3, rfl⟩,
        rollback_tail_cases c meta td sd primary canary td2 service [] hred⟩))
    · exact Or.inr (Or.inr (Or.inl ⟨td2, service, e3, rfl, rfl, h3, hnf,
        by simp [rollback, h1, h2, h3, hnf]⟩))
  · have hred : rollback (Option.some c) meta td sd primary canary =
        ((rollbackAfterSnapshot c meta td2 service primary canary prev).1,
         [PCall.registerTaskDefinition td, PCall.applyServiceDefinition sd,
          PCall.getServiceTaskSets service] ++
         (rollbackAfterSnapshot c meta td2 service primary canary prev).2) := by
      simp [rollback, h1, h2, h3]
    exact Or.inr (Or.inr (Or.inr ⟨td2, service, prev, rfl, rfl, Or.inl h3,
      rollback_tail_cases c meta td sd primary canary td2 service prev hred⟩))

/-- Claim C2: for every executor raw result and every stop-signal value, the
final stage status decided by the stage-status decision rule is CANCELLED
whenever the stop signal shows a cancellation or timeout was requested,
regardless of the raw result, unless the raw result was already a definitive
SUCCESS, which is never downgraded. -/
theorem DetermineStageStatus_cancel_precedence (sig : StopSignalKind)
    (ori got : StageStatus)
    (h : sig = StopSignalKind.cancel ∨ sig = StopSignalKind.timeout) :
    (got ≠ StageStatus.success →
        DetermineStageStatus sig ori got = StageStatus.cancelled) ∧
    (got = StageStatus.success →
        DetermineStageStatus sig ori got = StageStatus.success) := by
  rcases h with h | h <;> subst h <;>
    exact ⟨fun hg => by simp [DetermineStageStatus, hg],
           fun hg => by simp [DetermineStageStatus, hg]⟩

/-- Witness for C2: a raw FAILURE under a requested cancellation becomes
CANCELLED. -/
theorem DetermineStageStatus_cancel_precedence_w :
    StageStatus.failure ≠ StageStatus.success ∧
    DetermineStageStatus StopSignalKind.cancel StageStatus.running StageStatus.failure =
      StageStatus.cancelled :=
  ⟨by decide,
   (DetermineStageStatus_cancel_precedence StopSignalKind.cancel StageStatus.running
      StageStatus.failure (Or.inl rfl)).1 (by decide)⟩

/-- Claim C3: for every deployment whose running commit hash is empty,
ensureRollback reports FAILURE immediately and issues zero Platform Client
calls. -/
theorem ensureRollback_emptyHash (e : ExecutorInput)
    (h : e.deployment.runningCommitHash = "") :
    rollbackExecutor.ensureRollback e = (StageStatus.failure, []) := by
  simp [rollbackExecutor.ensureRollback, h]

/-- Witness for C3 at a concrete executor input with an empty hash. -/
theorem ensureRollback_emptyHash_w :
    wInputEmptyHash.deployment.runningCommitHash = "" ∧
    rollbackExecutor.ensureRollback wInputEmptyHash = (StageStatus.failure, []) :=
  ⟨rfl, ensureRollback_emptyHash wInputEmptyHash rfl⟩

/-- Claim C4: the canary target-group identifier is resolved with priority to
the prior-commit config (whose identifier is then used, the metadata store
never being consulted), falling back to the shared metadata store under the
well-known canary key, and when neither source has it, listener
reconciliation is skipped and treated as success with zero Platform Client
calls. -/
theorem rollbackELB_canary_resolution (c : Client) (p : LoadBalancer) :
    (∀ meta cg, rollbackELB c meta p (Option.some cg) =
        rollbackELBTraffic c p cg.targetGroupArn) ∧
    (∀ meta arn, sharedGet meta canaryTargetGroupArnKey = Option.some arn →
        rollbackELB c meta p Option.none = rollbackELBTraffic c p arn) ∧
    (∀ meta, sharedGet meta canaryTargetGroupArnKey = Option.none →
        rollbackELB c meta p Option.none = ⟨true, [], []⟩) := by
  refine ⟨fun meta cg => rfl, fun meta arn h => ?_, fun meta h => ?_⟩ <;>
    simp [rollbackELB, h]

/-- Witness for C4: with an empty metadata store and no canary group in the
prior config, reconciliation is skipped with success and no calls. -/
theorem rollbackELB_canary_resolution_w :
    sharedGet [] canaryTargetGroupArnKey = Option.none ∧
    rollbackELB cOk [] wLbP Option.none = ⟨true, [], []⟩ :=
  ⟨rfl, (rollbackELB_canary_resolution cOk wLbP).2.2 [] rfl⟩

/-- Claim C5: every listener-weight configuration applied by rollbackELB
assigns exactly 100 to the primary target group and 0 to the canary target
group, so the weights sum to 100. -/
theorem rollbackELB_weights (c : Client) (meta : List (String × String))
    (p : LoadBalancer) (canary : Option LoadBalancer)
    (arns : List String) (cfg : RoutingTrafficConfig)
    (h : PCall.modifyListeners arns cfg ∈ (rollbackELB c meta p canary).calls) :
    ∃ canaryArn, cfg = [⟨p.targetGroupArn, 100⟩, ⟨canaryArn, 0⟩] ∧
      (cfg.map RoutingTraffic.weight).sum = 100 := by
  rcases canary with _ | cg
  · rcases hm : sharedGet meta canaryTargetGroupArnKey with _ | arn
    · simp [rollbackELB, hm] at h
    · simp only [rollbackELB, hm] at h
      have hc := rollbackELBTraffic_modify_mem c p arn arns cfg h
      exact ⟨arn, hc, by rw [hc]; simp⟩
  · simp only [rollbackELB] at h
    have hc := rollbackELBTraffic_modify_mem c p cg.targetGroupArn arns cfg h
    exact ⟨cg.targetGroupArn, hc, by rw [hc]; simp⟩

/-- Witness for C5: the modification issued by a concrete successful
reconciliation carries the 100/0 configuration. -/
theorem rollbackELB_weights_w :
    PCall.modifyListeners ["listener-1"] [⟨"tg-primary", 100⟩, ⟨"tg-canary", 0⟩] ∈
      (rollbackELB cOk [] wLbP (Option.some wLbC)).calls ∧
    (∃ canaryArn,
      ([⟨"tg-primary", 100⟩, ⟨"tg-canary", 0⟩] : RoutingTrafficConfig) =
        [⟨wLbP.targetGroupArn, 100⟩, ⟨canaryArn, 0⟩] ∧
      (([⟨"tg-primary", 100⟩, ⟨"tg-canary", 0⟩] : RoutingTrafficConfig).map
        RoutingTraffic.weight).sum = 100) :=
  ⟨by decide,
   rollbackELB_weights cOk [] wLbP (Option.some wLbC) ["listener-1"]
     [⟨"tg-primary", 100⟩, ⟨"tg-canary", 0⟩] (by decide)⟩

/-- Claim C9: the wait stage-type provider returns exactly one stage
descriptor per requested stage, preserving index and name, with the rollback
flag false, empty initial metadata, and manual operation none; it never
returns an error, and it declares exactly the single stage name WAIT. -/
theorem wait_plugin_contract (input : BuildPipelineSyncStagesInput) :
    ∃ stages : List PipelineStage,
      plugin.BuildPipelineSyncStages input = Except.ok ⟨stages⟩ ∧
      stages.length = input.request.stages.length ∧
      (∀ (i : Nat) (rs : StageRequest), input.request.stages[i]? = Option.some rs →
        stages[i]? = Option.some ⟨rs.index, rs.name, false, [], ManualOperation.none⟩) ∧
      plugin.FetchDefinedStages = [stageWait] ∧ stageWait = "WAIT" := by
  refine ⟨input.request.stages.map (fun (rs : StageRequest) =>
    PipelineStage.mk rs.index rs.name false [] ManualOperation.none), rfl, by simp, ?_,
    rfl, rfl⟩
  intro i rs h
  simp [List.getElem?_map, h]

/-- Witness for C9 at a concrete two-stage request. -/
theorem wait_plugin_contract_w :
    ∃ stages : List PipelineStage,
      plugin.BuildPipelineSyncStages wBuildInput = Except.ok ⟨stages⟩ ∧
      stages.length = wBuildInput.request.stages.length ∧
      (∀ (i : Nat) (rs : StageRequest), wBuildInput.request.stages[i]? = Option.some rs →
        stages[i]? = Option.some ⟨rs.index, rs.name, false, [], ManualOperation.none⟩) ∧
      plugin.FetchDefinedStages = [stageWait] ∧ stageWait = "WAIT" :=
  wait_plugin_contract wBuildInput

/-- Claim C10: for every stage whose name is not the rollback stage name, the
rollback executor returns STAGE_FAILURE directly, with zero Platform Client
calls, bypassing the stage-status decision rule, for every stop-signal
value. -/
theorem Execute_unsupported_stage (e : ExecutorInput) (sig : StopSignalKind)
    (h : e.stage.name ≠ StageRollback) :
    rollbackExecutor.Execute e sig = (StageStatus.failure, []) := by
  simp [rollbackExecutor.Execute, h]

/-- Witness for C10: a WAIT stage under a requested cancellation still yields
FAILURE, not CANCELLED. -/
theorem Execute_unsupported_stage_w :
    wInputWait.stage.name ≠ StageRollback ∧
    rollbackExecutor.Execute wInputWait StopSignalKind.cancel =
      (StageStatus.failure, []) :=
  ⟨by decide, Execute_unsupported_stage wInputWait StopSignalKind.cancel (by decide)⟩

/-- Claim C6: when ModifyListeners fails after partially modifying some rules,
the rollback fails with the failing modification as its last Platform Client
call (no deletion is issued), and the set of modified rules it reports is
exactly the set returned by ModifyListeners, none dropped. -/
theorem rollback_modify_partial (c : Client) (meta : List (String × String))
    (td : TaskDefinition) (sd : Service) (p : LoadBalancer) (canaryArn : String)
    (td2 : TaskDefinition) (service : Service) (newTs ts2 : TaskSet)
    (prev : List TaskSet) (arns : List String) (rules : List String) (e : Err)
    (h1 : c.RegisterTaskDefinition td = Except.ok td2)
    (h2 : c.ApplyServiceDefinition sd = Except.ok service)
    (h3 : c.GetServiceTaskSets service = Except.ok prev)
    (h4 : c.CreateTaskSet service td2 (Option.some p) 100 = Except.ok newTs)
    (h5 : c.UpdateServicePrimaryTaskSet service newTs = Except.ok ts2)
    (h6 : c.GetListenerArns p = Except.ok arns)
    (h7 : c.ModifyListeners arns [⟨p.targetGroupArn, 100⟩, ⟨canaryArn, 0⟩] =
        (rules, Option.some e)) :
    rollback (Option.some c) meta td sd (Option.some p) (Option.some ⟨canaryArn⟩) =
      (false, [PCall.registerTaskDefinition td, PCall.applyServiceDefinition sd,
               PCall.getServiceTaskSets service,
               PCall.createTaskSet service td2 (Option.some p) 100,
               PCall.updateServicePrimaryTaskSet service newTs,
               PCall.getListenerArns p,
               PCall.modifyListeners arns [⟨p.targetGroupArn, 100⟩, ⟨canaryArn, 0⟩]]) ∧
    (rollbackELB c meta p (Option.some ⟨canaryArn⟩)).reportedRules = rules := by
  have helb : rollbackELB c meta p (Option.some ⟨canaryArn⟩) =
      ⟨false, [PCall.getListenerArns p,
               PCall.modifyListeners arns [⟨p.targetGroupArn, 100⟩, ⟨canaryArn, 0⟩]],
       rules⟩ := by
    simp [rollbackELB, rollbackELBTraffic, h6, h7]
  constructor
  · simp [rollback, rollbackAfterSnapshot, h1, h2, h3, h4, h5, helb]
  · rw [helb]

/-- Witness for C6: a partial listener modification of two rules at a concrete
client fails the rollback and reports exactly those two rules. -/
theorem rollback_modify_partial_w :
    cModFail.ModifyListeners ["listener-1"]
        [⟨"tg-primary", 100⟩, ⟨"tg-canary", 0⟩] =
      (["rule-1", "rule-2"], Option.some Err.fatal) ∧
    (rollback (Option.some cModFail) [] wTd wSd (Option.some wLbP)
        (Option.some ⟨"tg-canary"⟩) =
      (false, [PCall.registerTaskDefinition wTd, PCall.applyServiceDefinition wSd,
               PCall.getServiceTaskSets wSd,
               PCall.createTaskSet wSd wTd (Option.some wLbP) 100,
               PCall.updateServicePrimaryTaskSet wSd ⟨"ts-new"⟩,
               PCall.getListenerArns wLbP,
               PCall.modifyListeners ["listener-1"]
                 [⟨wLbP.targetGroupArn, 100⟩, ⟨"tg-canary", 0⟩]]) ∧
     (rollbackELB cModFail [] wLbP (Option.some ⟨"tg-canary"⟩)).reportedRules =
       ["rule-1", "rule-2"]) :=
  ⟨rfl,
   rollback_modify_partial cModFail [] wTd wSd wLbP "tg-canary" wTd wSd ⟨"ts-new"⟩
     ⟨"ts-new"⟩ [⟨"ts-old"⟩] ["listener-1"] ["rule-1", "rule-2"] Err.fatal
     rfl rfl rfl rfl rfl rfl rfl⟩

/-- Claim C7: when the deletion of one snapshotted task set fails, the
rollback fails, the deletions issued before the failing one stay issued, and
no Platform Client call at all follows the failing deletion, so nothing is
re-created. -/
theorem rollback_delete_failfast (c : Client) (meta : List (String × String))
    (td : TaskDefinition) (sd : Service) (canary : Option LoadBalancer)
    (td2 : TaskDefinition) (service : Service) (newTs ts2 : TaskSet)
    (l1 : List TaskSet) (ts : TaskSet) (l2 : List TaskSet) (e : Err)
    (h1 : c.RegisterTaskDefinition td = Except.ok td2)
    (h2 : c.ApplyServiceDefinition sd = Except.ok service)
    (h3 : c.GetServiceTaskSets service = Except.ok (l1 ++ ts :: l2))
    (h4 : c.CreateTaskSet service td2 Option.none 100 = Except.ok newTs)
    (h5 : c.UpdateServicePrimaryTaskSet service newTs = Except.ok ts2)
    (h6 : ∀ t ∈ l1, c.DeleteTaskSet t = Except.ok ())
    (h7 : c.DeleteTaskSet ts = Except.error e) :
    rollback (Option.some c) meta td sd Option.none canary =
      (false, [PCall.registerTaskDefinition td, PCall.applyServiceDefinition sd,
               PCall.getServiceTaskSets service,
               PCall.createTaskSet service td2 Option.none 100,
               PCall.updateServicePrimaryTaskSet service newTs] ++
              (l1.map PCall.deleteTaskSet ++ [PCall.deleteTaskSet ts])) := by
  have hd := deleteTaskSets_fail c l1 ts l2 e h6 h7
  simp [rollback, rollbackAfterSnapshot, h1, h2, h3, h4, h5, hd]

/-- Witness for C7: at a concrete client whose second deletion fails, the
trace ends with the failing deletion, after the one successful deletion. -/
theorem rollback_delete_failfast_w :
    cDelFail.DeleteTaskSet ⟨"ts-bad"⟩ = Except.error Err.fatal ∧
    rollback (Option.some cDelFail) [] wTd wSd Option.none Option.none =
      (false, [PCall.registerTaskDefinition wTd, PCall.applyServiceDefinition wSd,
               PCall.getServiceTaskSets wSd,
               PCall.createTaskSet wSd wTd Option.none 100,
               PCall.updateServicePrimaryTaskSet wSd ⟨"ts-new"⟩] ++
              (([⟨"ts-old"⟩] : List TaskSet).map PCall.deleteTaskSet ++
               [PCall.deleteTaskSet ⟨"ts-bad"⟩])) :=
  ⟨by simp [cDelFail],
   rollback_delete_failfast cDelFail [] wTd wSd Option.none wTd wSd ⟨"ts-new"⟩
     ⟨"ts-new"⟩ [⟨"ts-old"⟩] ⟨"ts-bad"⟩ [⟨"ts-x"⟩] Err.fatal
     rfl rfl rfl rfl rfl
     (by intro t ht; simp only [List.mem_singleton] at ht; subst ht; simp [cDelFail])
     (by simp [cDelFail])⟩

/-- Claim C8: when the task-set snapshot reports the distinguished not-found
condition, rollback treats it as an empty snapshot: it proceeds with the
remaining steps, issues zero deletions, succeeds when every subsequent step
succeeds, and the stage reaches SUCCESS. -/
theorem rollback_notFound_proceeds (c : Client) (meta : List (String × String))
    (td : TaskDefinition) (sd : Service) (canary : Option LoadBalancer)
    (td2 : TaskDefinition) (service : Service) (newTs ts2 : TaskSet)
    (h1 : c.RegisterTaskDefinition td = Except.ok td2)
    (h2 : c.ApplyServiceDefinition sd = Except.ok service)
    (h3 : c.GetServiceTaskSets service = Except.error Err.notFound)
    (h4 : c.CreateTaskSet service td2 Option.none 100 = Except.ok newTs)
    (h5 : c.UpdateServicePrimaryTaskSet service newTs = Except.ok ts2) :
    rollback (Option.some c) meta td sd Option.none canary =
      (true, [PCall.registerTaskDefinition td, PCall.applyServiceDefinition sd,
              PCall.getServiceTaskSets service,
              PCall.createTaskSet service td2 Option.none 100,
              PCall.updateServicePrimaryTaskSet service newTs]) ∧
    (∀ (hash : String) (spec : ECSApplicationSpec) (st : Stage), hash ≠ "" →
      rollbackExecutor.ensureRollback
        ⟨⟨hash⟩, Option.some ⟨Option.some spec⟩, true, Option.some td,
         Option.some sd, Option.some (Option.none, canary), Option.some c, meta, st⟩ =
        (StageStatus.success,
         [PCall.registerTaskDefinition td, PCall.applyServiceDefinition sd,
          PCall.getServiceTaskSets service,
          PCall.createTaskSet service td2 Option.none 100,
          PCall.updateServicePrimaryTaskSet service newTs])) := by
  have hr : rollback (Option.some c) meta td sd Option.none canary =
      (true, [PCall.registerTaskDefinition td, PCall.applyServiceDefinition sd,
              PCall.getServiceTaskSets service,
              PCall.createTaskSet service td2 Option.none 100,
              PCall.updateServicePrimaryTaskSet service newTs]) := by
    simp [rollback, rollbackAfterSnapshot, h1, h2, h3, h4, h5, deleteTaskSets]
  exact ⟨hr, fun hash spec st hh => by
    simp [rollbackExecutor.ensureRollback, hh, hr]⟩

/-- Witness for C8: a concrete client whose snapshot is not found still rolls
back with zero deletions and the stage reaches SUCCESS. -/
theorem rollback_notFound_proceeds_w :
    cNotFound.GetServiceTaskSets wSd = Except.error Err.notFound ∧
    rollback (Option.some cNotFound) [] wTd wSd Option.none Option.none =
      (true, [PCall.registerTaskDefinition wTd, PCall.applyServiceDefinition wSd,
              PCall.getServiceTaskSets wSd,
              PCall.createTaskSet wSd wTd Option.none 100,
              PCall.updateServicePrimaryTaskSet wSd ⟨"ts-new"⟩]) ∧
    rollbackExecutor.ensureRollback
        ⟨⟨"abc123"⟩, Option.some ⟨Option.some ⟨"td.json", "svc.json"⟩⟩, true,
         Option.some wTd, Option.some wSd, Option.some (Option.none, Option.none),
         Option.some cNotFound, [], ⟨"ROLLBACK", StageStatus.running⟩⟩ =
      (StageStatus.success,
       [PCall.registerTaskDefinition wTd, PCall.applyServiceDefinition wSd,
        PCall.getServiceTaskSets wSd,
        PCall.createTaskSet wSd wTd Option.none 100,
        PCall.updateServicePrimaryTaskSet wSd ⟨"ts-new"⟩]) :=
  ⟨rfl,
   (rollback_notFound_proceeds cNotFound [] wTd wSd Option.none wTd wSd ⟨"ts-new"⟩
      ⟨"ts-new"⟩ rfl rfl rfl rfl rfl).1,
   (rollback_notFound_proceeds cNotFound [] wTd wSd Option.none wTd wSd ⟨"ts-new"⟩
      ⟨"ts-new"⟩ rfl rfl rfl rfl rfl).2
     "abc123" ⟨"td.json", "svc.json"⟩ ⟨"ROLLBACK", StageStatus.running⟩ (by decide)⟩

end Pipecd
